import Mathlib

/-!
Shallow embedding of the shipment cost / delivery-estimation engine
(`src/services/shipmentService.js`) and the payment lifecycle
(`PaymentService`), with theorems checking the specification's claims.

Modelling conventions:
* JS numbers are modelled as exact rationals (ℚ); `toFixed(2)` followed by
  `parseFloat` is modelled by `round2`, rounding to the nearest multiple of
  1/100 with ties picked upward (the ECMA-262 `toFixed` tie rule: of the two
  candidate integers, the larger is chosen).
* Dates are modelled as integer day numbers (days since 1970-01-01, a
  Thursday); `Date.prototype.getDay` becomes `dayOfWeek d = (d + 4) % 7`
  (0 = Sunday .. 6 = Saturday). Millisecond timestamps (for
  `validatePickupDate`) are integers with 86400000 ms per day.
* Thrown `AppError`s become `Except AppError` results.
-/

/-- `AppError(message, statusCode)` from `utils/responseHandler.js`. -/
structure AppError where
  message : String
  statusCode : Nat
deriving Repr, DecidableEq

/-- Rounding used by `parseFloat(x.toFixed(2))`: nearest multiple of 1/100,
ties toward the larger integer numerator. -/
def round2 (x : ℚ) : ℚ := (⌊x * 100 + 1/2⌋ : ℚ) / 100

/-- A rational that is a whole number of cents (the form every rounded
monetary amount in the service has). -/
def IsCent (x : ℚ) : Prop := ∃ n : ℤ, x = (n : ℚ) / 100

/-- The rate configuration loaded by the `ShipmentService` constructor from
environment variables (default values shown in the source). -/
structure Rates where
  baseRateInternational : ℚ
  baseRateLocal : ℚ
  vatRate : ℚ
  insuranceRateBasic : ℚ
  insuranceRatePremium : ℚ
deriving Repr, DecidableEq

/-- The default rates from the constructor's fallback values. -/
def defaultRates : Rates :=
  { baseRateInternational := 20
    baseRateLocal := 10
    vatRate := 0.075
    insuranceRateBasic := 0.01
    insuranceRatePremium := 0.02 }

inductive ShipmentType
  | international
  | local
deriving Repr, DecidableEq

inductive InsuranceType
  | none
  | basic
  | premium
deriving Repr, DecidableEq

structure Dimensions where
  length : ℚ
  width : ℚ
  height : ℚ
deriving Repr, DecidableEq

/-- A package as consumed by the shipment service (`pkg.type`, `pkg.weight`,
`pkg.dimensions`, and the three special-handling flags). -/
structure Package where
  type : String
  weight : ℚ
  dimensions : Dimensions
  isFragile : Bool
  isPerishable : Bool
  isHazardous : Bool
deriving Repr, DecidableEq

namespace ShipmentService

/-- `calculateVolumetricWeight(dimensions)`. -/
def calculateVolumetricWeight (dimensions : Dimensions) : ℚ :=
  dimensions.length * dimensions.width * dimensions.height / 5000

/-- `calculateChargeableWeight(pkg)`. -/
def calculateChargeableWeight (pkg : Package) : ℚ :=
  max pkg.weight (calculateVolumetricWeight pkg.dimensions)

/-- `calculateTotalChargeableWeight(packages)`: `reduce` with accumulator 0. -/
def calculateTotalChargeableWeight (packages : List Package) : ℚ :=
  packages.foldl (fun total pkg => total + calculateChargeableWeight pkg) 0

/-- `this.baseRates[type]`. -/
def baseRateFor (r : Rates) (type : ShipmentType) : ℚ :=
  match type with
  | .international => r.baseRateInternational
  | .local => r.baseRateLocal

/-- The `packages.forEach` loop of `calculateBaseShippingCost`: each package
multiplies the running cost by 1.2 / 1.15 / 1.3 for its flags, in list
order. -/
def applySpecialHandling (packages : List Package) (cost : ℚ) : ℚ :=
  packages.foldl
    (fun c pkg =>
      let c1 := if pkg.isFragile then c * 1.2 else c
      let c2 := if pkg.isPerishable then c1 * 1.15 else c1
      if pkg.isHazardous then c2 * 1.3 else c2)
    cost

/-- `calculateBaseShippingCost(type, packages)`. -/
def calculateBaseShippingCost (r : Rates) (type : ShipmentType)
    (packages : List Package) : ℚ :=
  let totalWeight := calculateTotalChargeableWeight packages
  let baseRate := baseRateFor r type
  let cost := totalWeight * baseRate
  let cost := if type = ShipmentType.international then cost * 1.5 else cost
  round2 (applySpecialHandling packages cost)

/-- `calculateInsuranceCost(insuranceType, baseAmount)`. -/
def calculateInsuranceCost (r : Rates) (insuranceType : InsuranceType)
    (baseAmount : ℚ) : ℚ :=
  match insuranceType with
  | .none => 0
  | .basic => round2 (baseAmount * r.insuranceRateBasic)
  | .premium => round2 (baseAmount * r.insuranceRatePremium)

/-- The cost breakdown record returned by `calculateShippingCost`. -/
structure Cost where
  baseAmount : ℚ
  insurance : ℚ
  vat : ℚ
  total : ℚ
deriving Repr, DecidableEq

/-- The slice of shipment data that `calculateShippingCost` and
`estimateDeliveryDate` read: `type`, `packages`, `insurance?.type`, and
`pickup.date` (as a day number). -/
structure ShipmentData where
  type : ShipmentType
  packages : List Package
  insuranceType : Option InsuranceType
  pickupDate : ℤ
deriving Repr, DecidableEq

/-- `calculateShippingCost(shipmentData)`. `shipmentData.insurance?.type ||
'none'` falls back to `none` when the insurance record is absent. -/
def calculateShippingCost (r : Rates) (sd : ShipmentData) : Cost :=
  let baseAmount := calculateBaseShippingCost r sd.type sd.packages
  let insuranceCost :=
    calculateInsuranceCost r (sd.insuranceType.getD InsuranceType.none) baseAmount
  let vat := round2 (baseAmount * r.vatRate)
  let total := round2 (baseAmount + insuranceCost + vat)
  { baseAmount := baseAmount, insurance := insuranceCost, vat := vat,
    total := total }

/-- `Date.prototype.getDay` on a day number: 0 = Sunday .. 6 = Saturday
(day 0 = 1970-01-01 was a Thursday, hence the +4). -/
def dayOfWeek (d : ℤ) : ℤ := (d + 4) % 7

/-- `getDay() === 0 || getDay() === 6`. -/
def isWeekend (d : ℤ) : Bool := dayOfWeek d == 0 || dayOfWeek d == 6

/-- One fuel-bounded unrolling of the `while (weekend) day += 1` loop; seven
steps of fuel always suffice (see `weekendSkipAux_fuel_big`). -/
def weekendSkipAux : Nat → ℤ → ℤ
  | 0, d => d
  | n + 1, d => if isWeekend d then weekendSkipAux n (d + 1) else d

/-- The weekend-adjustment loop of `estimateDeliveryDate`. -/
def adjustForWeekends (d : ℤ) : ℤ := weekendSkipAux 7 d

/-- `Math.ceil(n / 2)` on a package count. -/
def ceilHalf (n : Nat) : Nat := (n + 1) / 2

/-- `estimateDeliveryDate(shipmentData)`, returning the estimated day
number. -/
def estimateDeliveryDate (sd : ShipmentData) : ℤ :=
  let deliveryDays : Nat := if sd.type = ShipmentType.international then 5 else 2
  let deliveryDays :=
    if sd.packages.length > 1 then deliveryDays + ceilHalf sd.packages.length
    else deliveryDays
  let hasSpecialHandling :=
    sd.packages.any (fun pkg => pkg.isFragile || pkg.isPerishable || pkg.isHazardous)
  let deliveryDays := if hasSpecialHandling then deliveryDays + 1 else deliveryDays
  adjustForWeekends (sd.pickupDate + (deliveryDays : ℤ))

/-- Milliseconds per day, for timestamp arithmetic. -/
def msPerDay : ℤ := 86400000

/-- `getDay()` on a millisecond timestamp. -/
def dayOfWeekTs (t : ℤ) : ℤ := (Int.fdiv t msPerDay + 4) % 7

/-- `validatePickupDate(pickupDate)`; `now` is the clock reading and
`maxDate = now + 30 days`. -/
def validatePickupDate (now date : ℤ) : Except AppError Unit :=
  let maxDate := now + 30 * msPerDay
  if date < now then
    .error ⟨"Pickup date cannot be in the past", 400⟩
  else if date > maxDate then
    .error ⟨"Pickup date cannot be more than 30 days in the future", 400⟩
  else if dayOfWeekTs date == 0 || dayOfWeekTs date == 6 then
    .error ⟨"Pickup is not available on weekends", 400⟩
  else
    .ok ()

/-- The per-package body of the `packages.forEach` in `validatePackages`,
with `index` the 0-based position; throws become `Except.error`. -/
def validatePackage (index : Nat) (pkg : Package) : Except AppError Unit :=
  if pkg.weight ≤ 0 then
    .error ⟨"Package " ++ toString (index + 1) ++ ": Weight must be greater than 0", 400⟩
  else if pkg.dimensions.length ≤ 0 ∨ pkg.dimensions.width ≤ 0 ∨
      pkg.dimensions.height ≤ 0 then
    .error ⟨"Package " ++ toString (index + 1) ++ ": Invalid dimensions", 400⟩
  else if pkg.dimensions.length > 150 ∨ pkg.dimensions.width > 150 ∨
      pkg.dimensions.height > 150 then
    .error ⟨"Package " ++ toString (index + 1) ++ ": Maximum dimension allowed is 150cm", 400⟩
  -- `const maxWeight = pkg.type === 'documents' ? 5 : 70`, with the
  -- template literal `${maxWeight}` inlined into each branch
  else if pkg.type = "documents" then
    if pkg.weight > 5 then
      .error ⟨"Package " ++ toString (index + 1) ++ ": Maximum weight allowed is 5kg", 400⟩
    else
      .ok ()
  else
    if pkg.weight > 70 then
      .error ⟨"Package " ++ toString (index + 1) ++ ": Maximum weight allowed is 70kg", 400⟩
    else
      .ok ()

/-- The `forEach` over packages: first thrown error wins. -/
def validatePackagesAux (index : Nat) : List Package → Except AppError Unit
  | [] => .ok ()
  | pkg :: rest =>
    match validatePackage index pkg with
    | .error e => .error e
    | .ok _ => validatePackagesAux (index + 1) rest

/-- `validatePackages(packages)`; `none` models a missing (`undefined`)
argument, which fails the `!packages` guard like an empty list. -/
def validatePackages (packages : Option (List Package)) : Except AppError Unit :=
  match packages with
  | .none => .error ⟨"At least one package is required", 400⟩
  | .some l =>
    if l.isEmpty then .error ⟨"At least one package is required", 400⟩
    else if l.length > 10 then .error ⟨"Maximum 10 packages allowed per shipment", 400⟩
    else validatePackagesAux 0 l

/-- The spec's reading of the base-cost computation: weight times rate, a
single 1.5 international factor, then one multiplicative surcharge factor
per package in list order. -/
def specBaseShippingCost (r : Rates) (type : ShipmentType)
    (packages : List Package) : ℚ :=
  let start := calculateTotalChargeableWeight packages * baseRateFor r type *
    (if type = ShipmentType.international then 1.5 else 1)
  round2 (packages.foldl
    (fun c pkg =>
      c * (if pkg.isFragile then 1.2 else 1) * (if pkg.isPerishable then 1.15 else 1)
        * (if pkg.isHazardous then 1.3 else 1))
    start)

/-- A concrete package used by several evaluations below. -/
def pkgPlain : Package :=
  { type := "parcel", weight := 10, dimensions := ⟨50, 40, 30⟩,
    isFragile := false, isPerishable := false, isHazardous := false }

/-- Concrete shipment data (basic insurance) for evaluating C2. -/
def sdBasic : ShipmentData :=
  { type := ShipmentType.local, packages := [pkgPlain],
    insuranceType := some InsuranceType.basic, pickupDate := 0 }

/-- The delivery-day count as the spec words it: a type base of 5 or 2, plus
`ceil(length/2)` when there is more than one package, plus 1 when any package
needs special handling. -/
def specDeliveryDays (sd : ShipmentData) : ℕ :=
  (if sd.type = ShipmentType.international then 5 else 2)
  + (if sd.packages.length > 1 then ceilHalf sd.packages.length else 0)
  + (if sd.packages.any (fun pkg => pkg.isFragile || pkg.isPerishable || pkg.isHazardous)
      then 1 else 0)

/-- Concrete shipment whose raw estimate lands on a Saturday (pickup on day
0, a Thursday; local, one plain package, so raw = day 2 = Saturday). -/
def sdSat : ShipmentData :=
  { type := ShipmentType.local, packages := [pkgPlain],
    insuranceType := none, pickupDate := 0 }

/-- The per-package constraints `validatePackage` actually enforces: positive
weight, all dimensions strictly positive and at most 150, and weight at most
5 for documents and 70 otherwise. -/
def packageOk (pkg : Package) : Prop :=
  0 < pkg.weight ∧
  0 < pkg.dimensions.length ∧ 0 < pkg.dimensions.width ∧ 0 < pkg.dimensions.height ∧
  pkg.dimensions.length ≤ 150 ∧ pkg.dimensions.width ≤ 150 ∧ pkg.dimensions.height ≤ 150 ∧
  pkg.weight ≤ (if pkg.type = "documents" then (5 : ℚ) else 70)

instance (pkg : Package) : Decidable (packageOk pkg) := by
  unfold packageOk
  infer_instance

/-- A package whose only flaw is non-positive weight. -/
def pkgBadWeight : Package :=
  { type := "parcel", weight := 0, dimensions := ⟨10, 10, 10⟩,
    isFragile := false, isPerishable := false, isHazardous := false }

/-- A package with a 0.5 cm dimension: inside (0, 1), so outside the spec's
1–150 range, yet accepted by the code. -/
def pkgTinyDim : Package :=
  { type := "parcel", weight := 1, dimensions := ⟨1/2, 10, 10⟩,
    isFragile := false, isPerishable := false, isHazardous := false }

end ShipmentService

inductive ShipmentStatus
  | pending
  | awaiting_pickup
  | picked_up
  | in_transit
  | out_for_delivery
  | delivered
  | cancelled
deriving Repr, DecidableEq

inductive PaymentStatus
  | pending
  | awaiting_verification
  | completed
  | failed
  | refunded
deriving Repr, DecidableEq

structure BankDetails where
  accountName : String
  bankName : String
deriving Repr, DecidableEq

/-- The payment sub-document as written by `PaymentService`; fields the
service may leave unset are `Option`s (JS `undefined`), and `refunded`
follows JS truthiness (an absent field reads as `false`). -/
structure Payment where
  status : PaymentStatus
  method : Option String
  amount : Option ℚ
  bankDetails : Option BankDetails
  createdAt : Option ℤ
  verifiedAt : Option ℤ
  verifiedBy : Option String
  notes : Option String
  rejectionReason : Option String
  refunded : Bool
  refundedAt : Option ℤ
  refundedBy : Option String
  refundReason : Option String
  refundAmount : Option ℚ
deriving Repr, DecidableEq

structure TimelineEntry where
  status : ShipmentStatus
  location : Option String
  description : String
deriving Repr, DecidableEq

/-- The slice of the shipment document the payment lifecycle reads and
writes: `status`, `cost`, `payment`, `timeline`. -/
structure Shipment where
  status : ShipmentStatus
  cost : ShipmentService.Cost
  payment : Payment
  timeline : List TimelineEntry
deriving Repr, DecidableEq

/-- `shipmentSchema.methods.addTimelineEntry(status, location, description)`
from `models/Shipment.js`: pushes one timeline entry and synchronises
`shipment.status` to the entry's status (the `save()` it performs is
accounted for in each operation's `saves` list). -/
def Shipment.addTimelineEntry (s : Shipment) (status : ShipmentStatus)
    (location : Option String) (description : String) : Shipment :=
  { s with
    timeline := s.timeline ++
      [{ status := status, location := location, description := description }]
    status := status }

/-- `paymentDetails` for payment initialisation; empty strings model both
missing and empty values (both falsy in the JS guard). -/
structure PaymentDetails where
  accountName : String
  bankName : String
deriving Repr, DecidableEq

structure VerificationDetails where
  verified : Bool
  notes : Option String
  rejectionReason : Option String
  adminId : String
deriving Repr, DecidableEq

structure RefundDetails where
  reason : String
  amount : Option ℚ
  adminId : String
deriving Repr, DecidableEq

instance {ε α : Type} [DecidableEq ε] [DecidableEq α] : DecidableEq (Except ε α) :=
  fun x y =>
    match x, y with
    | .ok a, .ok b =>
      if h : a = b then .isTrue (by rw [h]) else .isFalse (by simp [h])
    | .error e, .error f =>
      if h : e = f then .isTrue (by rw [h]) else .isFalse (by simp [h])
    | .ok _, .error _ => .isFalse (by simp)
    | .error _, .ok _ => .isFalse (by simp)

/-- Result of one payment-lifecycle operation: the sequence of shipment
states passed to `shipment.save()` (persistence calls, in order), and the
returned shipment or thrown error. -/
structure OpResult where
  saves : List Shipment
  result : Except AppError Shipment
deriving Repr, DecidableEq

namespace PaymentService

/-- `PaymentService.initializeBankTransfer(shipment, paymentDetails)` (named
`initBankTransfer` here): replaces the whole `shipment.payment` object and
saves; there is no precondition on the current payment status. -/
def initBankTransfer (shipment : Shipment) (pd : PaymentDetails)
    (now : ℤ) : OpResult :=
  if pd.accountName = "" ∨ pd.bankName = "" then
    { saves := [], result := .error ⟨"Account name and bank name are required", 400⟩ }
  else
    let s1 : Shipment :=
      { shipment with
        payment :=
          { status := PaymentStatus.awaiting_verification
            method := some "bank_transfer"
            amount := some shipment.cost.total
            bankDetails := some ⟨pd.accountName, pd.bankName⟩
            createdAt := some now
            verifiedAt := none, verifiedBy := none, notes := none
            rejectionReason := none, refunded := false
            refundedAt := none, refundedBy := none
            refundReason := none, refundAmount := none } }
    { saves := [s1], result := .ok s1 }

/-- `PaymentService.verifyBankTransfer(shipmentId, verificationDetails)`;
the `Option Shipment` argument is the `Shipment.findById` result. -/
def verifyBankTransfer (found : Option Shipment) (vd : VerificationDetails)
    (now : ℤ) : OpResult :=
  match found with
  | .none => { saves := [], result := .error ⟨"Shipment not found", 404⟩ }
  | .some shipment =>
    if shipment.payment.status ≠ PaymentStatus.awaiting_verification then
      { saves := [], result := .error ⟨"Payment is not awaiting verification", 400⟩ }
    else
      let p :=
        { shipment.payment with
          status := if vd.verified then PaymentStatus.completed else PaymentStatus.failed
          verifiedAt := some now
          verifiedBy := some vd.adminId
          notes := vd.notes }
      let s1 := { shipment with payment := p }
      if vd.verified then
        let s2 := { s1 with status := ShipmentStatus.awaiting_pickup }
        let s3 := s2.addTimelineEntry ShipmentStatus.awaiting_pickup none
          "Payment verified, shipment ready for pickup"
        -- addTimelineEntry saves, then the outer save() persists again
        { saves := [s3, s3], result := .ok s3 }
      else
        let s2 := { s1 with payment := { p with rejectionReason := vd.rejectionReason } }
        { saves := [s2], result := .ok s2 }

/-- `refundDetails.amount || shipment.cost.total`: JS falsy fallback, so a
provided amount of 0 also falls back to the shipment total. -/
def refundAmountOf (amount : Option ℚ) (fallback : ℚ) : ℚ :=
  match amount with
  | .none => fallback
  | .some a => if a = 0 then fallback else a

/-- `PaymentService.processRefund(shipmentId, refundDetails)`. -/
def processRefund (found : Option Shipment) (rd : RefundDetails)
    (now : ℤ) : OpResult :=
  match found with
  | .none => { saves := [], result := .error ⟨"Shipment not found", 404⟩ }
  | .some shipment =>
    if shipment.payment.status ≠ PaymentStatus.completed then
      { saves := [], result := .error ⟨"Payment must be completed to process refund", 400⟩ }
    else if shipment.payment.refunded then
      { saves := [], result := .error ⟨"Payment has already been refunded", 400⟩ }
    else
      let p :=
        { shipment.payment with
          refunded := true
          refundedAt := some now
          refundedBy := some rd.adminId
          refundReason := some rd.reason
          refundAmount := some (refundAmountOf rd.amount shipment.cost.total) }
      let s1 := { shipment with payment := p, status := ShipmentStatus.cancelled }
      -- save(), then addTimelineEntry (which saves a second time)
      let s2 := s1.addTimelineEntry ShipmentStatus.cancelled none
        ("Shipment cancelled and refunded: " ++ rd.reason)
      { saves := [s1, s2], result := .ok s2 }

/-- The projection returned by `PaymentService.getPaymentStatus`. -/
structure PaymentStatusView where
  status : PaymentStatus
  method : Option String
  amount : ℚ
  createdAt : Option ℤ
  verifiedAt : Option ℤ
  refunded : Bool
  refundedAt : Option ℤ
  refundAmount : Option ℚ
  refundReason : Option String
deriving Repr, DecidableEq

/-- `PaymentService.getPaymentStatus(shipmentId)`: a pure read. -/
def getPaymentStatus (found : Option Shipment) :
    Except AppError PaymentStatusView :=
  match found with
  | .none => .error ⟨"Shipment not found", 404⟩
  | .some shipment =>
    .ok
      { status := shipment.payment.status
        method := shipment.payment.method
        amount := shipment.cost.total
        createdAt := shipment.payment.createdAt
        verifiedAt := shipment.payment.verifiedAt
        refunded := shipment.payment.refunded
        refundedAt := shipment.payment.refundedAt
        refundAmount := shipment.payment.refundAmount
        refundReason := shipment.payment.refundReason }

end PaymentService

/-- A payment in the `failed` or `refunded` terminal region of the spec's
payment state diagram. -/
def terminalPayment (p : Payment) : Prop :=
  p.status = PaymentStatus.failed ∨ p.refunded = true

instance (p : Payment) : Decidable (terminalPayment p) := by
  unfold terminalPayment
  infer_instance

/-- A concrete cost record used by the payment examples. -/
def costStd : ShipmentService.Cost :=
  { baseAmount := 90, insurance := 3, vat := 7, total := 100 }

/-- A payment awaiting verification. -/
def payAwait : Payment :=
  { status := PaymentStatus.awaiting_verification, method := some "bank_transfer",
    amount := some 100, bankDetails := some ⟨"Ada", "FirstBank"⟩, createdAt := some 0,
    verifiedAt := none, verifiedBy := none, notes := none, rejectionReason := none,
    refunded := false, refundedAt := none, refundedBy := none,
    refundReason := none, refundAmount := none }

/-- A completed, not-yet-refunded payment. -/
def payCompleted : Payment :=
  { payAwait with
    status := PaymentStatus.completed
    verifiedAt := some 1
    verifiedBy := some "admin1" }

/-- A failed payment. -/
def payFailed : Payment :=
  { payAwait with
    status := PaymentStatus.failed
    rejectionReason := some "no funds" }

def sAwait : Shipment :=
  { status := ShipmentStatus.pending, cost := costStd, payment := payAwait,
    timeline := [] }

def sCompleted : Shipment :=
  { status := ShipmentStatus.awaiting_pickup, cost := costStd,
    payment := payCompleted, timeline := [] }

def sFailed : Shipment :=
  { status := ShipmentStatus.pending, cost := costStd, payment := payFailed,
    timeline := [] }

def vdYes : VerificationDetails :=
  { verified := true, notes := some "receipt checked", rejectionReason := none,
    adminId := "admin1" }

def rdPlain : RefundDetails :=
  { reason := "damaged in transit", amount := none, adminId := "admin2" }

def rdZero : RefundDetails :=
  { reason := "goodwill", amount := some 0, adminId := "admin2" }

/-- `round2` always lands on a whole number of cents. -/
theorem round2_isCent (x : ℚ) : IsCent (round2 x) :=
  ⟨⌊x * 100 + 1/2⌋, rfl⟩

theorem IsCent.zero : IsCent 0 :=
  ⟨0, by norm_num⟩

theorem IsCent.add {x y : ℚ} (hx : IsCent x) (hy : IsCent y) : IsCent (x + y) := by
  obtain ⟨n, rfl⟩ := hx
  obtain ⟨m, rfl⟩ := hy
  exact ⟨n + m, by push_cast; ring⟩

/-- Rounding a whole number of cents is the identity. -/
theorem round2_eq_self {x : ℚ} (h : IsCent x) : round2 x = x := by
  obtain ⟨n, rfl⟩ := h
  unfold round2
  have h1 : (n : ℚ) / 100 * 100 + 1/2 = (n : ℚ) + 1/2 := by
    field_simp
  rw [h1, Int.floor_int_add]
  norm_num

namespace ShipmentService

theorem applySpecialHandling_eq_spec (packages : List Package) :
    ∀ start : ℚ,
      applySpecialHandling packages start =
        packages.foldl
          (fun c pkg =>
            c * (if pkg.isFragile then 1.2 else 1)
              * (if pkg.isPerishable then 1.15 else 1)
              * (if pkg.isHazardous then 1.3 else 1))
          start := by
  unfold applySpecialHandling
  induction packages with
  | nil => intro start; rfl
  | cons pkg rest ih =>
    intro start
    rw [List.foldl_cons, List.foldl_cons, ih]
    congr 1
    cases pkg.isFragile <;> cases pkg.isPerishable <;> cases pkg.isHazardous <;> simp

theorem calculateInsuranceCost_isCent (r : Rates) (t : InsuranceType) (b : ℚ) :
    IsCent (calculateInsuranceCost r t b) := by
  cases t with
  | none => exact IsCent.zero
  | basic => exact round2_isCent _
  | premium => exact round2_isCent _

theorem calculateBaseShippingCost_isCent (r : Rates) (t : ShipmentType)
    (ps : List Package) : IsCent (calculateBaseShippingCost r t ps) :=
  round2_isCent _

/-- C1: for every shipment type and non-empty package list,
`calculateBaseShippingCost` equals `round2` of: total chargeable weight times
the type's base rate, times 1.5 once for international, then — iterating over
the packages in list order — the whole running value multiplied by 1.2 per
fragile, 1.15 per perishable and 1.3 per hazardous package (surcharges
compound on the aggregate running cost). -/
theorem calculateBaseShippingCost_matches_spec (r : Rates) (type : ShipmentType)
    (packages : List Package) (_hne : packages ≠ []) :
    calculateBaseShippingCost r type packages = specBaseShippingCost r type packages := by
  cases type <;>
    simp [calculateBaseShippingCost, specBaseShippingCost, applySpecialHandling_eq_spec]

theorem calculateBaseShippingCost_matches_spec_witness :
    ([pkgPlain] : List Package) ≠ [] ∧
      calculateBaseShippingCost defaultRates ShipmentType.international [pkgPlain] =
        specBaseShippingCost defaultRates ShipmentType.international [pkgPlain] :=
  ⟨by simp,
    calculateBaseShippingCost_matches_spec defaultRates ShipmentType.international
      [pkgPlain] (by simp)⟩

/-- C2: `calculateShippingCost` returns the four-field breakdown in which
vat = round2(baseAmount × vatRate), insurance is 0 for `none` and otherwise
round2(baseAmount × insuranceRate[type]), total = round2 of the sum of the
three components, and — because each component is already a whole number of
cents — total equals the exact sum of the three rounded components. -/
theorem calculateShippingCost_components (r : Rates) (sd : ShipmentData) :
    (calculateShippingCost r sd).baseAmount =
      calculateBaseShippingCost r sd.type sd.packages ∧
    (sd.insuranceType.getD InsuranceType.none = InsuranceType.none →
      (calculateShippingCost r sd).insurance = 0) ∧
    (sd.insuranceType.getD InsuranceType.none = InsuranceType.basic →
      (calculateShippingCost r sd).insurance =
        round2 ((calculateShippingCost r sd).baseAmount * r.insuranceRateBasic)) ∧
    (sd.insuranceType.getD InsuranceType.none = InsuranceType.premium →
      (calculateShippingCost r sd).insurance =
        round2 ((calculateShippingCost r sd).baseAmount * r.insuranceRatePremium)) ∧
    (calculateShippingCost r sd).vat =
      round2 ((calculateShippingCost r sd).baseAmount * r.vatRate) ∧
    (calculateShippingCost r sd).total =
      round2 ((calculateShippingCost r sd).baseAmount +
        (calculateShippingCost r sd).insurance + (calculateShippingCost r sd).vat) ∧
    (calculateShippingCost r sd).total =
      (calculateShippingCost r sd).baseAmount +
        (calculateShippingCost r sd).insurance + (calculateShippingCost r sd).vat := by
  refine ⟨rfl, ?_, ?_, ?_, rfl, rfl, ?_⟩
  · intro h
    show calculateInsuranceCost r (sd.insuranceType.getD InsuranceType.none) _ = 0
    rw [h]
    rfl
  · intro h
    show calculateInsuranceCost r (sd.insuranceType.getD InsuranceType.none) _ = _
    rw [h]
    rfl
  · intro h
    show calculateInsuranceCost r (sd.insuranceType.getD InsuranceType.none) _ = _
    rw [h]
    rfl
  · exact round2_eq_self
      (((calculateBaseShippingCost_isCent r sd.type sd.packages).add
        (calculateInsuranceCost_isCent r _ _)).add (round2_isCent _))

theorem calculateShippingCost_components_witness :
    sdBasic.insuranceType.getD InsuranceType.none = InsuranceType.basic ∧
      (calculateShippingCost defaultRates sdBasic).insurance =
        round2 ((calculateShippingCost defaultRates sdBasic).baseAmount *
          defaultRates.insuranceRateBasic) ∧
      (calculateShippingCost defaultRates sdBasic).total =
        (calculateShippingCost defaultRates sdBasic).baseAmount +
          (calculateShippingCost defaultRates sdBasic).insurance +
          (calculateShippingCost defaultRates sdBasic).vat :=
  ⟨by decide,
    (calculateShippingCost_components defaultRates sdBasic).2.2.1 (by decide),
    (calculateShippingCost_components defaultRates sdBasic).2.2.2.2.2.2⟩

theorem dayOfWeek_range (d : ℤ) : 0 ≤ dayOfWeek d ∧ dayOfWeek d < 7 := by
  unfold dayOfWeek
  omega

theorem dayOfWeek_succ (d : ℤ) : dayOfWeek (d + 1) = (dayOfWeek d + 1) % 7 := by
  unfold dayOfWeek
  omega

theorem weekendSkipAux_succ (n : ℕ) (d : ℤ) :
    weekendSkipAux (n + 1) d = if isWeekend d then weekendSkipAux n (d + 1) else d :=
  rfl

theorem weekendSkipAux_of_weekend (n : ℕ) {d : ℤ} (h : isWeekend d = true) :
    weekendSkipAux (n + 1) d = weekendSkipAux n (d + 1) := by
  rw [weekendSkipAux_succ, if_pos h]

theorem weekendSkipAux_of_not (n : ℕ) {d : ℤ} (h : isWeekend d = false) :
    weekendSkipAux (n + 1) d = d := by
  rw [weekendSkipAux_succ, h]
  simp

theorem isWeekend_false_iff (d : ℤ) :
    isWeekend d = false ↔ dayOfWeek d ≠ 0 ∧ dayOfWeek d ≠ 6 := by
  simp [isWeekend, not_or]

/-- Closed form of the weekend-skip loop: a Saturday result moves two days
(to Monday), a Sunday result one day, anything else is returned as-is. -/
theorem adjustForWeekends_eq (d : ℤ) :
    adjustForWeekends d =
      if dayOfWeek d = 6 then d + 2
      else if dayOfWeek d = 0 then d + 1
      else d := by
  have h1 := dayOfWeek_succ d
  have h2 := dayOfWeek_succ (d + 1)
  have hr := dayOfWeek_range d
  unfold adjustForWeekends
  rcases show dayOfWeek d = 0 ∨ dayOfWeek d = 1 ∨ dayOfWeek d = 2 ∨ dayOfWeek d = 3 ∨
      dayOfWeek d = 4 ∨ dayOfWeek d = 5 ∨ dayOfWeek d = 6 by omega with
    h | h | h | h | h | h | h
  · have ha : isWeekend d = true := by simp [isWeekend, h]
    have hb : dayOfWeek (d + 1) = 1 := by rw [h1, h]; decide
    have hc : isWeekend (d + 1) = false := by simp [isWeekend, hb]
    rw [h]
    norm_num
    calc weekendSkipAux 7 d = weekendSkipAux 6 (d + 1) := weekendSkipAux_of_weekend 6 ha
      _ = d + 1 := weekendSkipAux_of_not 5 hc
  · have ha : isWeekend d = false := by simp [isWeekend, h]
    rw [h]
    norm_num
    exact weekendSkipAux_of_not 6 ha
  · have ha : isWeekend d = false := by simp [isWeekend, h]
    rw [h]
    norm_num
    exact weekendSkipAux_of_not 6 ha
  · have ha : isWeekend d = false := by simp [isWeekend, h]
    rw [h]
    norm_num
    exact weekendSkipAux_of_not 6 ha
  · have ha : isWeekend d = false := by simp [isWeekend, h]
    rw [h]
    norm_num
    exact weekendSkipAux_of_not 6 ha
  · have ha : isWeekend d = false := by simp [isWeekend, h]
    rw [h]
    norm_num
    exact weekendSkipAux_of_not 6 ha
  · have ha : isWeekend d = true := by simp [isWeekend, h]
    have hb : dayOfWeek (d + 1) = 0 := by rw [h1, h]; decide
    have hc : isWeekend (d + 1) = true := by simp [isWeekend, hb]
    have hd2 : dayOfWeek (d + 1 + 1) = 1 := by rw [h2, hb]; decide
    have he : isWeekend (d + 1 + 1) = false := by simp [isWeekend, hd2]
    rw [h]
    norm_num
    calc weekendSkipAux 7 d = weekendSkipAux 6 (d + 1) := weekendSkipAux_of_weekend 6 ha
      _ = weekendSkipAux 5 (d + 1 + 1) := weekendSkipAux_of_weekend 5 hc
      _ = d + 1 + 1 := weekendSkipAux_of_not 4 he
      _ = d + 2 := by ring

theorem adjust_not_weekend (d : ℤ) : isWeekend (adjustForWeekends d) = false := by
  rw [adjustForWeekends_eq]
  have h1 := dayOfWeek_succ d
  have h2 := dayOfWeek_succ (d + 1)
  split_ifs with h6 h0
  · have : dayOfWeek (d + 2) = 1 := by
      have e : d + 2 = d + 1 + 1 := by ring
      rw [e, h2, h1, h6]
      decide
    simp [isWeekend, this]
  · have : dayOfWeek (d + 1) = 1 := by rw [h1, h0]; decide
    simp [isWeekend, this]
  · simp [isWeekend, h6, h0]

/-- C5: `estimateDeliveryDate` adds the spec's delivery-day count to the
pickup date and then walks forward one day at a time while the result is a
Saturday or Sunday; the returned date is never a weekend, a non-weekend raw
result is returned as-is, and a raw result on Saturday moves to the following
Monday. -/
theorem estimateDeliveryDate_spec (sd : ShipmentData) :
    estimateDeliveryDate sd =
      adjustForWeekends (sd.pickupDate + (specDeliveryDays sd : ℤ)) ∧
    isWeekend (estimateDeliveryDate sd) = false ∧
    (isWeekend (sd.pickupDate + (specDeliveryDays sd : ℤ)) = false →
      estimateDeliveryDate sd = sd.pickupDate + (specDeliveryDays sd : ℤ)) ∧
    (dayOfWeek (sd.pickupDate + (specDeliveryDays sd : ℤ)) = 6 →
      estimateDeliveryDate sd = sd.pickupDate + (specDeliveryDays sd : ℤ) + 2 ∧
        dayOfWeek (estimateDeliveryDate sd) = 1) := by
  have hmain : estimateDeliveryDate sd =
      adjustForWeekends (sd.pickupDate + (specDeliveryDays sd : ℤ)) := by
    unfold estimateDeliveryDate specDeliveryDays
    dsimp only
    apply congrArg
    push_cast
    split_ifs <;> omega
  refine ⟨hmain, ?_, ?_, ?_⟩
  · rw [hmain]
    exact adjust_not_weekend _
  · intro h
    rw [hmain, adjustForWeekends_eq]
    rw [isWeekend_false_iff] at h
    simp [h.1, h.2]
  · intro h
    have h1 := dayOfWeek_succ (sd.pickupDate + (specDeliveryDays sd : ℤ))
    have h2 := dayOfWeek_succ (sd.pickupDate + (specDeliveryDays sd : ℤ) + 1)
    constructor
    · rw [hmain, adjustForWeekends_eq]
      simp [h]
    · rw [hmain, adjustForWeekends_eq]
      simp only [h, if_true]
      have e : sd.pickupDate + (specDeliveryDays sd : ℤ) + 2 =
          sd.pickupDate + (specDeliveryDays sd : ℤ) + 1 + 1 := by ring
      rw [e, h2, h1, h]
      decide

theorem estimateDeliveryDate_spec_witness :
    dayOfWeek (sdSat.pickupDate + (specDeliveryDays sdSat : ℤ)) = 6 ∧
      estimateDeliveryDate sdSat = sdSat.pickupDate + (specDeliveryDays sdSat : ℤ) + 2 ∧
      dayOfWeek (estimateDeliveryDate sdSat) = 1 :=
  ⟨by decide,
    ((estimateDeliveryDate_spec sdSat).2.2.2 (by decide)).1,
    ((estimateDeliveryDate_spec sdSat).2.2.2 (by decide)).2⟩

/-- C9: `validatePickupDate` succeeds exactly on dates between now and 30
days ahead that are not Saturdays or Sundays, and every rejection carries
status code 400. -/
theorem validatePickupDate_spec (now date : ℤ) :
    (validatePickupDate now date = .ok () ↔
      now ≤ date ∧ date ≤ now + 30 * msPerDay ∧
        dayOfWeekTs date ≠ 0 ∧ dayOfWeekTs date ≠ 6) ∧
    ∀ e, validatePickupDate now date = .error e → e.statusCode = 400 := by
  constructor
  · unfold validatePickupDate
    by_cases h1 : date < now
    · simp only [if_pos h1, reduceCtorEq, false_iff]
      intro hc
      omega
    · rw [if_neg h1]
      by_cases h2 : date > now + 30 * msPerDay
      · simp only [if_pos h2, reduceCtorEq, false_iff]
        intro hc
        omega
      · rw [if_neg h2]
        by_cases h3 : (dayOfWeekTs date == 0 || dayOfWeekTs date == 6) = true
        · simp only [if_pos h3, reduceCtorEq, false_iff]
          simp only [Bool.or_eq_true, beq_iff_eq] at h3
          intro hc
          rcases h3 with h | h
          · exact hc.2.2.1 h
          · exact hc.2.2.2 h
        · simp only [if_neg h3, true_iff]
          simp only [Bool.or_eq_true, beq_iff_eq, not_or] at h3
          exact ⟨by omega, by omega, h3.1, h3.2⟩
  · unfold validatePickupDate
    by_cases h1 : date < now
    · simp only [if_pos h1]
      intro e he
      injection he with h
      rw [← h]
    · rw [if_neg h1]
      by_cases h2 : date > now + 30 * msPerDay
      · simp only [if_pos h2]
        intro e he
        injection he with h
        rw [← h]
      · rw [if_neg h2]
        by_cases h3 : (dayOfWeekTs date == 0 || dayOfWeekTs date == 6) = true
        · simp only [if_pos h3]
          intro e he
          injection he with h
          rw [← h]
        · simp only [if_neg h3]
          intro e he
          simp at he

theorem validatePickupDate_spec_witness :
    validatePickupDate 0 86400000 = .ok () :=
  (validatePickupDate_spec 0 86400000).1.mpr
    ⟨by norm_num, by norm_num [msPerDay], by decide, by decide⟩

theorem validatePackagesAux_cons (i : ℕ) (p : Package) (rest : List Package) :
    validatePackagesAux i (p :: rest) =
      match validatePackage i p with
      | .error e => .error e
      | .ok _ => validatePackagesAux (i + 1) rest :=
  rfl

theorem validatePackages_some (l : List Package) :
    validatePackages (some l) =
      if l.isEmpty then .error ⟨"At least one package is required", 400⟩
      else if l.length > 10 then
        .error ⟨"Maximum 10 packages allowed per shipment", 400⟩
      else validatePackagesAux 0 l :=
  rfl

theorem validatePackage_ok_iff (i : ℕ) (pkg : Package) :
    validatePackage i pkg = .ok () ↔ packageOk pkg := by
  unfold validatePackage packageOk
  by_cases h1 : pkg.weight ≤ 0
  · rw [if_pos h1]
    simp only [reduceCtorEq, false_iff]
    intro hx
    exact absurd h1 (not_le.mpr hx.1)
  · rw [if_neg h1]
    by_cases h2 : pkg.dimensions.length ≤ 0 ∨ pkg.dimensions.width ≤ 0 ∨
        pkg.dimensions.height ≤ 0
    · rw [if_pos h2]
      simp only [reduceCtorEq, false_iff]
      intro hx
      rcases h2 with h | h | h
      · exact absurd h (not_le.mpr hx.2.1)
      · exact absurd h (not_le.mpr hx.2.2.1)
      · exact absurd h (not_le.mpr hx.2.2.2.1)
    · rw [if_neg h2]
      by_cases h3 : pkg.dimensions.length > 150 ∨ pkg.dimensions.width > 150 ∨
          pkg.dimensions.height > 150
      · rw [if_pos h3]
        simp only [reduceCtorEq, false_iff]
        intro hx
        rcases h3 with h | h | h
        · exact absurd h (not_lt.mpr hx.2.2.2.2.1)
        · exact absurd h (not_lt.mpr hx.2.2.2.2.2.1)
        · exact absurd h (not_lt.mpr hx.2.2.2.2.2.2.1)
      · rw [if_neg h3]
        push_neg at h1 h2 h3
        by_cases hdoc : pkg.type = "documents"
        · rw [if_pos hdoc]
          by_cases hw : pkg.weight > 5
          · rw [if_pos hw]
            simp only [reduceCtorEq, false_iff]
            intro hx
            have hle := hx.2.2.2.2.2.2.2
            rw [if_pos hdoc] at hle
            exact absurd hw (not_lt.mpr hle)
          · rw [if_neg hw]
            simp only [true_iff]
            exact ⟨h1, h2.1, h2.2.1, h2.2.2, h3.1, h3.2.1, h3.2.2,
              by rw [if_pos hdoc]; exact not_lt.mp hw⟩
        · rw [if_neg hdoc]
          by_cases hw : pkg.weight > 70
          · rw [if_pos hw]
            simp only [reduceCtorEq, false_iff]
            intro hx
            have hle := hx.2.2.2.2.2.2.2
            rw [if_neg hdoc] at hle
            exact absurd hw (not_lt.mpr hle)
          · rw [if_neg hw]
            simp only [true_iff]
            exact ⟨h1, h2.1, h2.2.1, h2.2.2, h3.1, h3.2.1, h3.2.2,
              by rw [if_neg hdoc]; exact not_lt.mp hw⟩

theorem validatePackagesAux_ok_iff (l : List Package) :
    ∀ i, validatePackagesAux i l = .ok () ↔ ∀ pkg ∈ l, packageOk pkg := by
  induction l with
  | nil =>
    intro i
    simp [validatePackagesAux]
  | cons p rest ih =>
    intro i
    cases hv : validatePackage i p with
    | error e =>
      have hred : validatePackagesAux i (p :: rest) = .error e := by
        rw [validatePackagesAux_cons, hv]
      rw [hred]
      simp only [reduceCtorEq, false_iff]
      intro hall
      have hok := (validatePackage_ok_iff i p).mpr (hall p (by simp))
      rw [hv] at hok
      exact absurd hok (by simp)
    | ok u =>
      cases u
      have hp : packageOk p := (validatePackage_ok_iff i p).mp hv
      have hred : validatePackagesAux i (p :: rest) = validatePackagesAux (i + 1) rest := by
        rw [validatePackagesAux_cons, hv]
      rw [hred, ih (i + 1)]
      simp [List.forall_mem_cons, hp]

theorem validatePackagesAux_first_error (p : Package) (l₂ : List Package)
    (hbad : ¬ packageOk p) :
    ∀ l₁ : List Package, (∀ q ∈ l₁, packageOk q) →
      ∀ i, validatePackagesAux i (l₁ ++ p :: l₂) = validatePackage (i + l₁.length) p := by
  intro l₁
  induction l₁ with
  | nil =>
    intro _ i
    cases hv : validatePackage i p with
    | error e =>
      simp only [List.nil_append, List.length_nil, Nat.add_zero]
      rw [validatePackagesAux_cons, hv]
    | ok u =>
      cases u
      exact absurd ((validatePackage_ok_iff i p).mp hv) hbad
  | cons q rest ih =>
    intro hok i
    have hq : packageOk q := hok q (by simp)
    have hv : validatePackage i q = .ok () := (validatePackage_ok_iff i q).mpr hq
    have hred : validatePackagesAux i ((q :: rest) ++ p :: l₂) =
        validatePackagesAux (i + 1) (rest ++ p :: l₂) := by
      rw [List.cons_append, validatePackagesAux_cons, hv]
    rw [hred, ih (fun x hx => hok x (by simp [hx])) (i + 1)]
    congr 1
    simp
    omega

/-- C8 (amended: the lower dimension bound the code enforces is "strictly
positive", not "at least 1 cm"): `validatePackages` succeeds exactly on a
present, non-empty list of at most 10 packages all satisfying `packageOk`;
when a prefix is valid and the next package violates a constraint, the
result is that package's own first-violation error, whose message names its
1-based index. -/
theorem validatePackages_spec :
    (∀ ps : Option (List Package), validatePackages ps = .ok () ↔
      ∃ l, ps = some l ∧ l ≠ [] ∧ l.length ≤ 10 ∧ ∀ pkg ∈ l, packageOk pkg) ∧
    (∀ (l₁ : List Package) (p : Package) (l₂ : List Package),
      (l₁ ++ p :: l₂).length ≤ 10 → (∀ q ∈ l₁, packageOk q) → ¬ packageOk p →
      validatePackages (some (l₁ ++ p :: l₂)) = validatePackage l₁.length p) ∧
    (∀ (i : ℕ) (pkg : Package), ¬ packageOk pkg →
      ∃ suffix e, validatePackage i pkg = .error e ∧ e.statusCode = 400 ∧
        e.message = "Package " ++ toString (i + 1) ++ suffix) := by
  refine ⟨?_, ?_, ?_⟩
  · intro ps
    cases ps with
    | none => simp [validatePackages]
    | some l =>
      constructor
      · intro h
        rw [validatePackages_some] at h
        by_cases he : l.isEmpty
        · rw [if_pos he] at h
          exact absurd h (by simp)
        · rw [if_neg he] at h
          by_cases hlen : l.length > 10
          · rw [if_pos hlen] at h
            exact absurd h (by simp)
          · rw [if_neg hlen] at h
            refine ⟨l, rfl, ?_, by omega, (validatePackagesAux_ok_iff l 0).mp h⟩
            intro hc
            exact he (by simp [hc])
      · rintro ⟨l', hl', hne, hlen, hall⟩
        injection hl' with h'
        subst h'
        rw [validatePackages_some, if_neg (by simpa using hne), if_neg (by omega)]
        exact (validatePackagesAux_ok_iff l 0).mpr hall
  · intro l₁ p l₂ hlen hok hbad
    rw [validatePackages_some, if_neg (by simp), if_neg (by omega)]
    have h := validatePackagesAux_first_error p l₂ hbad l₁ hok 0
    simpa using h
  · intro i pkg hbad
    unfold validatePackage
    by_cases h1 : pkg.weight ≤ 0
    · rw [if_pos h1]
      exact ⟨": Weight must be greater than 0", _, rfl, rfl, rfl⟩
    · rw [if_neg h1]
      by_cases h2 : pkg.dimensions.length ≤ 0 ∨ pkg.dimensions.width ≤ 0 ∨
          pkg.dimensions.height ≤ 0
      · rw [if_pos h2]
        exact ⟨": Invalid dimensions", _, rfl, rfl, rfl⟩
      · rw [if_neg h2]
        by_cases h3 : pkg.dimensions.length > 150 ∨ pkg.dimensions.width > 150 ∨
            pkg.dimensions.height > 150
        · rw [if_pos h3]
          exact ⟨": Maximum dimension allowed is 150cm", _, rfl, rfl, rfl⟩
        · rw [if_neg h3]
          push_neg at h1 h2 h3
          by_cases hdoc : pkg.type = "documents"
          · rw [if_pos hdoc]
            by_cases hw : pkg.weight > 5
            · rw [if_pos hw]
              exact ⟨": Maximum weight allowed is 5kg", _, rfl, rfl, rfl⟩
            · exfalso
              apply hbad
              exact ⟨h1, h2.1, h2.2.1, h2.2.2, h3.1, h3.2.1, h3.2.2,
                by rw [if_pos hdoc]; exact not_lt.mp hw⟩
          · rw [if_neg hdoc]
            by_cases hw : pkg.weight > 70
            · rw [if_pos hw]
              exact ⟨": Maximum weight allowed is 70kg", _, rfl, rfl, rfl⟩
            · exfalso
              apply hbad
              exact ⟨h1, h2.1, h2.2.1, h2.2.2, h3.1, h3.2.1, h3.2.2,
                by rw [if_neg hdoc]; exact not_lt.mp hw⟩

theorem validatePackages_spec_witness :
    validatePackages (some ([pkgPlain] ++ pkgBadWeight :: [])) =
      validatePackage ([pkgPlain] : List Package).length pkgBadWeight :=
  validatePackages_spec.2.1 [pkgPlain] pkgBadWeight [] (by decide) (by decide) (by decide)

/-- C8 counterexample: `validatePackages` accepts a package whose dimension
is 0.5 cm, although the claim requires rejecting any dimension outside the
1–150 cm range. -/
theorem validatePackages_counterexample :
    validatePackages (some [pkgTinyDim]) = .ok () ∧
      pkgTinyDim.dimensions.length < 1 := by
  constructor
  · have h : validatePackage 0 pkgTinyDim = .ok () :=
      (validatePackage_ok_iff 0 pkgTinyDim).mpr
        (by
          unfold packageOk
          norm_num [pkgTinyDim]
          rw [if_neg (by decide)]
          norm_num)
    rw [validatePackages_some, if_neg (by simp), if_neg (by simp),
      validatePackagesAux_cons, h]
    rfl
  · norm_num [pkgTinyDim]

end ShipmentService

namespace PaymentService

/-- C3: `verifyBankTransfer` rejects with the invalid-state error whenever
the payment is not awaiting verification; from `awaiting_verification`, a
positive verification completes the payment, stamps verifiedAt/verifiedBy/
notes, moves the shipment to `awaiting_pickup` and appends exactly one
timeline entry with that status and the fixed description; a rejection
fails the payment, records the rejection reason and leaves the shipment
status and timeline unchanged. -/
theorem verifyBankTransfer_spec (s : Shipment) (vd : VerificationDetails) (now : ℤ) :
    (s.payment.status ≠ PaymentStatus.awaiting_verification →
      verifyBankTransfer (some s) vd now =
        { saves := [], result := .error ⟨"Payment is not awaiting verification", 400⟩ }) ∧
    (s.payment.status = PaymentStatus.awaiting_verification → vd.verified = true →
      ∃ s', (verifyBankTransfer (some s) vd now).result = .ok s' ∧
        s'.payment.status = PaymentStatus.completed ∧
        s'.payment.verifiedAt = some now ∧
        s'.payment.verifiedBy = some vd.adminId ∧
        s'.payment.notes = vd.notes ∧
        s'.status = ShipmentStatus.awaiting_pickup ∧
        s'.timeline = s.timeline ++
          [{ status := ShipmentStatus.awaiting_pickup, location := none,
             description := "Payment verified, shipment ready for pickup" }]) ∧
    (s.payment.status = PaymentStatus.awaiting_verification → vd.verified = false →
      ∃ s', (verifyBankTransfer (some s) vd now).result = .ok s' ∧
        s'.payment.status = PaymentStatus.failed ∧
        s'.payment.rejectionReason = vd.rejectionReason ∧
        s'.payment.verifiedAt = some now ∧
        s'.payment.verifiedBy = some vd.adminId ∧
        s'.payment.notes = vd.notes ∧
        s'.status = s.status ∧
        s'.timeline = s.timeline) := by
  refine ⟨?_, ?_, ?_⟩
  · intro h
    unfold verifyBankTransfer
    dsimp only
    rw [if_pos h]
  · intro h hv
    unfold verifyBankTransfer Shipment.addTimelineEntry
    dsimp only
    simp [h, hv]
  · intro h hv
    unfold verifyBankTransfer
    dsimp only
    simp [h, hv]

theorem verifyBankTransfer_spec_witness :
    ∃ s', (verifyBankTransfer (some sAwait) vdYes 5).result = .ok s' ∧
      s'.payment.status = PaymentStatus.completed ∧
      s'.payment.verifiedAt = some 5 ∧
      s'.payment.verifiedBy = some vdYes.adminId ∧
      s'.payment.notes = vdYes.notes ∧
      s'.status = ShipmentStatus.awaiting_pickup ∧
      s'.timeline = sAwait.timeline ++
        [{ status := ShipmentStatus.awaiting_pickup, location := none,
           description := "Payment verified, shipment ready for pickup" }] :=
  (verifyBankTransfer_spec sAwait vdYes 5).2.1 rfl rfl

/-- C4 (amended: a provided refund amount of 0 is falsy in JS, so it falls
back to the shipment total, like an absent amount): `processRefund` succeeds
exactly when the payment is completed and not yet refunded, rejecting with
the matching invalid-state error otherwise; on success it marks the payment
refunded with refundedAt/refundedBy/refundReason, sets refundAmount to the
provided non-zero amount and otherwise to the shipment total, cancels the
shipment, appends a cancelled timeline entry whose description includes the
reason, and a second refund on the result rejects. -/
theorem processRefund_spec (s : Shipment) (rd rd2 : RefundDetails) (now now2 : ℤ) :
    (s.payment.status ≠ PaymentStatus.completed →
      processRefund (some s) rd now =
        { saves := [],
          result := .error ⟨"Payment must be completed to process refund", 400⟩ }) ∧
    (s.payment.status = PaymentStatus.completed → s.payment.refunded = true →
      processRefund (some s) rd now =
        { saves := [], result := .error ⟨"Payment has already been refunded", 400⟩ }) ∧
    (s.payment.status = PaymentStatus.completed → s.payment.refunded = false →
      ∃ s', (processRefund (some s) rd now).result = .ok s' ∧
        s'.payment.refunded = true ∧
        s'.payment.refundedAt = some now ∧
        s'.payment.refundedBy = some rd.adminId ∧
        s'.payment.refundReason = some rd.reason ∧
        (∀ a, rd.amount = some a → ¬ a = 0 → s'.payment.refundAmount = some a) ∧
        ((rd.amount = none ∨ rd.amount = some 0) →
          s'.payment.refundAmount = some s.cost.total) ∧
        s'.status = ShipmentStatus.cancelled ∧
        s'.timeline = s.timeline ++
          [{ status := ShipmentStatus.cancelled, location := none,
             description := "Shipment cancelled and refunded: " ++ rd.reason }] ∧
        (processRefund (some s') rd2 now2).result =
          .error ⟨"Payment has already been refunded", 400⟩) := by
  refine ⟨?_, ?_, ?_⟩
  · intro h
    unfold processRefund
    dsimp only
    rw [if_pos h]
  · intro h hr
    unfold processRefund
    dsimp only
    rw [if_neg (fun hc => hc h), if_pos hr]
  · intro h hr
    unfold processRefund Shipment.addTimelineEntry
    dsimp only
    rw [if_neg (fun hc => hc h), if_neg (by simp [hr])]
    refine ⟨_, rfl, rfl, rfl, rfl, rfl, ?_, ?_, rfl, rfl, ?_⟩
    · intro a ha hnz
      simp [refundAmountOf, ha, hnz]
    · intro ha
      rcases ha with ha | ha <;> simp [refundAmountOf, ha]
    · rw [if_neg (by simp [h]), if_pos (by simp)]

theorem processRefund_spec_witness :
    ∃ s', (processRefund (some sCompleted) rdPlain 7).result = .ok s' ∧
      s'.payment.refunded = true ∧
      s'.status = ShipmentStatus.cancelled ∧
      (processRefund (some s') rdPlain 8).result =
        .error ⟨"Payment has already been refunded", 400⟩ := by
  obtain ⟨s', h1, h2, _, _, _, _, _, h8, _, h10⟩ :=
    (processRefund_spec sCompleted rdPlain rdPlain 7 8).2.2 rfl rfl
  exact ⟨s', h1, h2, h8, h10⟩

/-- C4 counterexample: an explicitly provided refund amount of 0 is not
recorded; the JS falsy fallback stores the shipment total instead. -/
theorem processRefund_amount_counterexample :
    rdZero.amount = some 0 ∧
      ∃ s', (processRefund (some sCompleted) rdZero 7).result = .ok s' ∧
        s'.payment.refundAmount = some 100 ∧
        s'.payment.refundAmount ≠ some 0 := by
  refine ⟨rfl, _, rfl, ?_, ?_⟩
  · show some (refundAmountOf rdZero.amount sCompleted.cost.total) = some 100
    simp [refundAmountOf, rdZero, sCompleted, costStd]
  · show some (refundAmountOf rdZero.amount sCompleted.cost.total) ≠ some 0
    simp [refundAmountOf, rdZero, sCompleted, costStd]

/-- C6 (amended: the absorbing property holds for `verifyBankTransfer` and
`processRefund`; `initializeBankTransfer` takes no payment-status
precondition — it unconditionally re-initialises the payment and so can
leave a terminal state, see the counterexample): once the payment is failed
or refunded, verification can only keep it terminal and a refund always
rejects. -/
theorem terminal_preserved (s : Shipment) (vd : VerificationDetails)
    (rd : RefundDetails) (now : ℤ) (ht : terminalPayment s.payment) :
    (∀ s', (verifyBankTransfer (some s) vd now).result = .ok s' →
      terminalPayment s'.payment) ∧
    ∃ e, processRefund (some s) rd now = { saves := [], result := .error e } := by
  constructor
  · intro s' hs'
    unfold verifyBankTransfer at hs'
    dsimp only at hs'
    by_cases h : s.payment.status ≠ PaymentStatus.awaiting_verification
    · rw [if_pos h] at hs'
      exact absurd hs' (by simp)
    · rw [if_neg h] at hs'
      push_neg at h
      have href : s.payment.refunded = true := by
        rcases ht with hf | hr
        · rw [h] at hf
          exact absurd hf (by simp)
        · exact hr
      by_cases hv : vd.verified = true
      · rw [if_pos hv] at hs'
        dsimp only at hs'
        injection hs' with he
        rw [← he]
        exact Or.inr href
      · rw [if_neg hv] at hs'
        dsimp only at hs'
        injection hs' with he
        rw [← he]
        exact Or.inr href
  · rcases ht with hf | hr
    · refine ⟨⟨"Payment must be completed to process refund", 400⟩, ?_⟩
      unfold processRefund
      dsimp only
      rw [if_pos (by rw [hf]; simp)]
    · by_cases hc : s.payment.status = PaymentStatus.completed
      · refine ⟨⟨"Payment has already been refunded", 400⟩, ?_⟩
        unfold processRefund
        dsimp only
        rw [if_neg (fun hcc => hcc hc), if_pos hr]
      · refine ⟨⟨"Payment must be completed to process refund", 400⟩, ?_⟩
        unfold processRefund
        dsimp only
        rw [if_pos hc]

theorem terminal_preserved_witness :
    ∃ e, processRefund (some sFailed) rdPlain 0 =
      { saves := [], result := .error e } :=
  (terminal_preserved sFailed vdYes rdPlain 0 (Or.inl rfl)).2

/-- C6 counterexample: from a failed — terminal — payment,
`initializeBankTransfer` succeeds and moves the payment back to
`awaiting_verification` with `refunded = false`, leaving the terminal
state. -/
theorem terminal_escape_counterexample :
    terminalPayment sFailed.payment ∧
      ∃ s', (initBankTransfer sFailed ⟨"Ada", "FirstBank"⟩ 3).result = .ok s' ∧
        s'.payment.status = PaymentStatus.awaiting_verification ∧
        ¬ terminalPayment s'.payment := by
  refine ⟨Or.inl rfl, _, rfl, rfl, ?_⟩
  intro hc
  rcases hc with h | h <;> exact absurd h (by simp)

/-- C7 (amended: `processRefund` leaves `payment.status` at `completed` and
records the refund only in the `refunded` flag; `getPaymentStatus` therefore
reports status `completed` with `refunded = true` — the diagram's `refunded`
status value is never stored). -/
theorem processRefund_reports (s : Shipment) (rd : RefundDetails) (now : ℤ)
    (h : s.payment.status = PaymentStatus.completed)
    (hr : s.payment.refunded = false) :
    ∃ s', (processRefund (some s) rd now).result = .ok s' ∧
      s'.payment.status = PaymentStatus.completed ∧
      s'.payment.refunded = true ∧
      ∃ v, getPaymentStatus (some s') = .ok v ∧
        v.status = PaymentStatus.completed ∧ v.refunded = true := by
  unfold processRefund Shipment.addTimelineEntry getPaymentStatus
  dsimp only
  rw [if_neg (fun hc => hc h), if_neg (by simp [hr])]
  exact ⟨_, rfl, h, rfl, _, rfl, h, rfl⟩

theorem processRefund_reports_witness :
    ∃ s', (processRefund (some sCompleted) rdPlain 7).result = .ok s' ∧
      s'.payment.status = PaymentStatus.completed ∧
      s'.payment.refunded = true ∧
      ∃ v, getPaymentStatus (some s') = .ok v ∧
        v.status = PaymentStatus.completed ∧ v.refunded = true :=
  processRefund_reports sCompleted rdPlain 7 rfl rfl

/-- C7 counterexample: after a successful refund, the stored payment status
is not `refunded` (it is still `completed`), and `getPaymentStatus` does not
report `refunded`. -/
theorem processRefund_status_counterexample :
    ∃ s', (processRefund (some sCompleted) rdPlain 7).result = .ok s' ∧
      s'.payment.status ≠ PaymentStatus.refunded ∧
      ∃ v, getPaymentStatus (some s') = .ok v ∧
        v.status ≠ PaymentStatus.refunded := by
  refine ⟨_, rfl, ?_, _, rfl, ?_⟩
  · decide
  · decide

/-- C10: whenever `verifyBankTransfer` or `processRefund` rejects — shipment
absent, payment not awaiting verification, payment not completed, or payment
already refunded — no `save` is issued, so the stored shipment record is
left entirely unchanged: all precondition checks precede any mutation or
persistence call. -/
theorem rejections_atomic (found : Option Shipment)
    (vd : VerificationDetails) (rd : RefundDetails) (now : ℤ) :
    (∀ e, (verifyBankTransfer found vd now).result = .error e →
      (verifyBankTransfer found vd now).saves = []) ∧
    (∀ e, (processRefund found rd now).result = .error e →
      (processRefund found rd now).saves = []) := by
  constructor
  · intro e he
    cases found with
    | none => rfl
    | some s =>
      unfold verifyBankTransfer at he ⊢
      dsimp only at he ⊢
      by_cases h : s.payment.status ≠ PaymentStatus.awaiting_verification
      · rw [if_pos h]
      · rw [if_neg h] at he ⊢
        by_cases hv : vd.verified = true
        · rw [if_pos hv] at he
          exact absurd he (by simp)
        · rw [if_neg hv] at he
          exact absurd he (by simp)
  · intro e he
    cases found with
    | none => rfl
    | some s =>
      unfold processRefund at he ⊢
      dsimp only at he ⊢
      by_cases h : s.payment.status ≠ PaymentStatus.completed
      · rw [if_pos h]
      · rw [if_neg h] at he ⊢
        by_cases hr : s.payment.refunded = true
        · rw [if_pos hr]
        · rw [if_neg hr] at he
          exact absurd he (by simp)

theorem rejections_atomic_witness :
    (verifyBankTransfer (some sCompleted) vdYes 0).saves = [] :=
  (rejections_atomic (some sCompleted) vdYes rdPlain 0).1
    ⟨"Payment is not awaiting verification", 400⟩ rfl

end PaymentService
